import Mathlib

/-!
Shallow embedding of the batch-orchestration core of
`src/video_scene_detector.py` (class `VideoProcessor`).

External collaborators (PySceneDetect `detect`, `split_video_ffmpeg`,
the filesystem, wall-clock time, the tqdm rendering backend) are modelled
as inputs: a `JobEnv` records, for one job, what the detection call does
(returns a scene list of a given length, or raises), whether the split
call raises, and the wall-clock start/end instants.  Fallible Python code
(a raised `ZeroDivisionError`) is modelled with `Option`: `none` is the
exception.  Times and progress amounts are `ℚ` (Python floats, modelled
exactly; no claim here is about rounding).
-/

namespace VideoSceneDetector

/-- Status strings written into the status key of `file_stats` by
`process_video` and `process_folder`: the initial "failed", then
"success", "warning" or "error". -/
inductive FileStatus
  | failed
  | success
  | warning
  | error
  deriving DecidableEq, Repr

/-- The per-file `file_stats` dict built in `process_video` (lines
166-172).  `end_time` and `processing_time` are `Option` because the dict
starts without those keys (lines 226-229 add them only on the
non-exception path). -/
structure FileStats where
  filename : String
  start_time : ℚ
  scenes_detected : ℕ
  status : FileStatus
  error : Option String
  end_time : Option ℚ
  processing_time : Option ℚ
  deriving DecidableEq, Repr

/-- The `stats_update` dict returned by `process_video` and consumed by
`_update_stats`; each field is `Option` because `_update_stats` tests key
presence (`if "total_scenes_detected" in stats_update` and so on,
lines 130-137). -/
structure StatsUpdate where
  total_scenes_detected : Option ℕ
  failed_files : Option ℕ
  processing_time : Option ℚ
  file_stats : Option FileStats
  deriving DecidableEq, Repr

/-- `self.stats` of `VideoProcessor` (lines 114-120). -/
structure Stats where
  total_files_processed : ℕ
  total_scenes_detected : ℕ
  failed_files : ℕ
  processing_times : List ℚ
  files_processed : List FileStats
  deriving DecidableEq, Repr

/-- `self.stats` as initialised in `VideoProcessor.__init__`
(lines 114-120): all counters 0, both sequences empty. -/
def initStats : Stats :=
  { total_files_processed := 0
    total_scenes_detected := 0
    failed_files := 0
    processing_times := []
    files_processed := [] }

/-- `VideoProcessor._update_stats` (lines 127-138): each present key is
folded into the matching counter or appended to the matching list, and
`total_files_processed` is incremented unconditionally at the end. -/
def updateStats (s : Stats) (u : StatsUpdate) : Stats :=
  let s1 := match u.total_scenes_detected with
    | some n => { s with total_scenes_detected := s.total_scenes_detected + n }
    | none => s
  let s2 := match u.failed_files with
    | some n => { s1 with failed_files := s1.failed_files + n }
    | none => s1
  let s3 := match u.processing_time with
    | some t => { s2 with processing_times := s2.processing_times ++ [t] }
    | none => s2
  let s4 := match u.file_stats with
    | some fs => { s3 with files_processed := s3.files_processed ++ [fs] }
    | none => s3
  { s4 with total_files_processed := s4.total_files_processed + 1 }

/-- The `[global]` configuration keys `process_video` reads during
execution: `output_directory` and `create_subdirs`
(`_get_output_path`, lines 339-349). -/
structure Config where
  output_directory : String
  create_subdirs : Bool
  deriving DecidableEq, Repr

/-- `VideoProcessor._get_output_path` (lines 339-349): reads
`self.config_manager.config` live at call time; with `create_subdirs`
it returns `base/stem/stem-scene`, otherwise `base/stem-scene`.
Directory creation is a filesystem side effect, not modelled. -/
def getOutputPath (cfg : Config) (stem : String) : String :=
  if cfg.create_subdirs then
    cfg.output_directory ++ "/" ++ stem ++ "/" ++ stem ++ "-scene"
  else
    cfg.output_directory ++ "/" ++ stem ++ "-scene"

/-- Outcome of the external detection call `detect(str(video_path),
detector)` inside `_detect_scenes_optimized` (lines 237-246): a scene
list, abstracted to its length, or a raised exception with a message. -/
inductive DetectResult
  | ok (scenes : ℕ)
  | raise (msg : String)
  deriving DecidableEq, Repr

/-- The environment one `process_video` call runs in: what the detection
collaborator does, whether `split_video_ffmpeg` raises (some message) or
succeeds (`none`), and the wall-clock instants taken by
`datetime.now()` at entry and at line 226. -/
structure JobEnv where
  detect : DetectResult
  splitRaises : Option String
  startTime : ℚ
  endTime : ℚ
  deriving DecidableEq, Repr

/-- Whether the `try` body of `process_video` raises: detection raised,
or detection returned a non-empty list and the split call raised.  (With
zero scenes the split branch is not entered, so nothing can raise.) -/
def jobRaises (e : JobEnv) : Bool :=
  match e.detect with
  | .raise _ => true
  | .ok 0 => false
  | .ok (_ + 1) => e.splitRaises.isSome

/-- The sequence of `update(delta)` calls made on the tqdm bar by the
`try` body of `process_video` (before the `finally`), as a function of
the detection outcome:
* detection raises: only `update(10)` (line 180) ran;
* zero scenes: `update(10)`, `update(40)` (line 184), `update(90)`
  (line 205);
* `s+1` scenes: `update(10)`, `update(40)`, then
  `_split_video_with_progress` (lines 248-266): `progress_per_scene =
  40 / total_scenes`, one `update(progress_per_scene)` per iteration of
  `zip(scenes[:-1], scenes[1:])` (that is `total_scenes - 1` times), then
  `update(40 - progress_per_scene * (total_scenes - 1))`; these all
  precede the `split_video_ffmpeg` call, so they run whether or not the
  split raises. -/
def barUpdates (d : DetectResult) : List ℚ :=
  match d with
  | .raise _ => [10]
  | .ok 0 => [10, 40, 90]
  | .ok (s + 1) =>
      let pps : ℚ := 40 / ((s : ℚ) + 1)
      [10, 40] ++ List.replicate s pps ++ [40 - pps * (((s : ℚ) + 1) - 1)]

/-- Running totals of the bar counter `n` from a list of deltas: the
value of `progress_bar.n` after each `update` call. -/
def cumFrom (n : ℚ) : List ℚ → List ℚ
  | [] => []
  | d :: ds => (n + d) :: cumFrom (n + d) ds

/-- The full trace of bar values over one `process_video` call: the
`try`-body updates, then the `update(100 - file_progress.n)` of the
`finally` block (line 222), which leaves `n` at exactly
100 on every path. -/
def progressTrace (d : DetectResult) : List ℚ :=
  cumFrom 0 (barUpdates d) ++ [100]

/-- One entry of `folder_path.iterdir()`, abstracted to `Path.stem` and
`Path.suffix` (what `get_video_files` and `_get_output_path` consume). -/
structure VFile where
  stem : String
  suffix : String
  deriving DecidableEq, Repr

/-- `Path.name`: stem plus suffix. -/
def VFile.name (f : VFile) : String := f.stem ++ f.suffix

/-- `self.supported_formats` (line 112). -/
def supported_formats : List String := [".mp4", ".avi", ".mov", ".mkv"]

/-- Python `str.lower()` as used on suffixes (ASCII): lower-case each
character. -/
def lowerStr (s : String) : String := String.mk (s.data.map Char.toLower)

/-- `VideoProcessor.get_video_files` (lines 377-379): keep the entries
whose lower-cased suffix is in the allow-list. -/
def getVideoFiles (entries : List VFile) : List VFile :=
  entries.filter (fun f => supported_formats.contains (lowerStr f.suffix))

/-- Everything observable about one `process_video` call, beyond the
returned `stats_update` dict: whether `split_video_ffmpeg` was invoked,
which output location was resolved (when the split branch ran), and the
progress-bar trace. -/
structure ProcessOutput where
  update : StatsUpdate
  splitCalled : Bool
  outputLocation : Option String
  progressTrace : List ℚ
  deriving DecidableEq, Repr

/-- `VideoProcessor.process_video` (lines 163-235).  `file_stats` starts
with filename, start_time, scenes_detected 0, status "failed" and a
null error; then:
* detection raises: the `except` block sets status "error" with the
  message and returns a dict holding only the failed_files count 1 and
  file_stats — no `end_time`, no `processing_time` (lines 212-219);
* zero scenes: status "warning", error "No scenes detected"
  (lines 203-210), then lines 226-234 add `end_time` and
  `processing_time = (end - start).total_seconds()` and return all three
  keys with `total_scenes_detected = 0`;
* `s+1` scenes: `_get_output_path` is called (line 188), then
  `_split_video_with_progress` invokes `split_video_ffmpeg`; if it
  raises, same `except` path as above (status "error",
  `scenes_detected` still 0 since line 198 was not reached); otherwise
  status "success" and the three keys are returned with
  `total_scenes_detected = s+1`.
The function takes the `Config` present when it executes: the source
reads `self.config_manager.config` live inside `_get_output_path`, there
is no submission-time snapshot. -/
def processVideo (cfg : Config) (e : JobEnv) (file : VFile) : ProcessOutput :=
  let fs0 : FileStats :=
    { filename := file.name
      start_time := e.startTime
      scenes_detected := 0
      status := .failed
      error := none
      end_time := none
      processing_time := none }
  match e.detect with
  | .raise msg =>
      { update :=
          { total_scenes_detected := none
            failed_files := some 1
            processing_time := none
            file_stats := some { fs0 with status := .error, error := some msg } }
        splitCalled := false
        outputLocation := none
        progressTrace := progressTrace e.detect }
  | .ok 0 =>
      let pt := e.endTime - e.startTime
      { update :=
          { total_scenes_detected := some 0
            failed_files := none
            processing_time := some pt
            file_stats := some
              { fs0 with
                status := .warning
                error := some "No scenes detected"
                end_time := some e.endTime
                processing_time := some pt } }
        splitCalled := false
        outputLocation := none
        progressTrace := progressTrace e.detect }
  | .ok (s + 1) =>
      let out := getOutputPath cfg file.stem
      match e.splitRaises with
      | some msg =>
          { update :=
              { total_scenes_detected := none
                failed_files := some 1
                processing_time := none
                file_stats := some { fs0 with status := .error, error := some msg } }
            splitCalled := true
            outputLocation := some out
            progressTrace := progressTrace e.detect }
      | none =>
          let pt := e.endTime - e.startTime
          { update :=
              { total_scenes_detected := some (s + 1)
                failed_files := none
                processing_time := some pt
                file_stats := some
                  { fs0 with
                    scenes_detected := s + 1
                    status := .success
                    error := none
                    end_time := some e.endTime
                    processing_time := some pt } }
            splitCalled := true
            outputLocation := some out
            progressTrace := progressTrace e.detect }

/-- The `as_completed` loop of `process_folder` (lines 303-317): one
`_update_stats` call per completed future, folded over the completion
order. -/
def runPool (s0 : Stats) (us : List StatsUpdate) : Stats :=
  us.foldl updateStats s0

/-- The index filter of `process_folder` (lines 276-277):
`if selected_indices:` is Python truthiness, so both `None` and the empty
list skip the filter; otherwise
`[video_files[i] for i in selected_indices if 0 <= i < len(video_files)]`
keeps, in the order of `selected_indices` (duplicates included), the
entries at in-range zero-based positions — out-of-range positions are
silently dropped. -/
def applyIndexFilter {α : Type} (files : List α) (sel : Option (List ℤ)) : List α :=
  match sel with
  | none => files
  | some idxs =>
      if idxs.isEmpty then files
      else idxs.filterMap (fun i =>
        if 0 ≤ i ∧ i < (files.length : ℤ) then files.get? i.toNat else none)

/-- The conversion the interactive menu applies to the comma-separated
user entry before calling `process_folder`
(`MenuSystem._process_selected_files`, line 483: it maps
`int(x.strip()) - 1` over the split selection). -/
def menuToIndices (userEntries : List ℤ) : List ℤ :=
  userEntries.map (fun i => i - 1)

/-- What a `process_folder` call did, observably. -/
structure RunResult where
  reportedNoFiles : Bool
  poolStarted : Bool
  submitted : ℕ
  stats : Stats
  summaryPrinted : Bool
  deriving DecidableEq, Repr

/-- `VideoProcessor.process_folder` (lines 268-331): discover video
files; if the discovered list is empty, print "No video files found"
and return before the index filter, the pool and the summary.  Otherwise
apply the index filter, submit one `process_video` job per surviving
file to the pool, fold every completion through `_update_stats`, and
call `_print_processing_summary`.  (The fold here uses submission order;
the theorems about counters quantify over an arbitrary completion
permutation.) -/
def processFolder (cfg : Config) (s0 : Stats) (entries : List VFile)
    (sel : Option (List ℤ)) (envs : VFile → JobEnv) : RunResult :=
  let video_files := getVideoFiles entries
  if video_files.isEmpty then
    { reportedNoFiles := true
      poolStarted := false
      submitted := 0
      stats := s0
      summaryPrinted := false }
  else
    let selected := applyIndexFilter video_files sel
    let updates := selected.map (fun f => (processVideo cfg (envs f) f).update)
    { reportedNoFiles := false
      poolStarted := true
      submitted := selected.length
      stats := runPool s0 updates
      summaryPrinted := true }

/-- The success-rate expression of `_print_processing_summary`
(line 363): `(total_files - failed_files) / total_files * 100` with no
guard; in Python this raises `ZeroDivisionError` when
`total_files_processed` is 0, modelled as `none`.  The subtraction is on
Python ints, hence `ℤ`. -/
def successRate (s : Stats) : Option ℚ :=
  if s.total_files_processed = 0 then none
  else some ((((s.total_files_processed : ℤ) - (s.failed_files : ℤ) : ℤ) : ℚ)
        / (s.total_files_processed : ℚ) * 100)

/-- The average-time expression of `_print_processing_summary`
(line 356): guarded, 0 when `processing_times` is empty. -/
def avgTime (s : Stats) : ℚ :=
  if s.processing_times.isEmpty then 0
  else s.processing_times.sum / (s.processing_times.length : ℚ)

/-- The values `_print_processing_summary` prints (lines 351-363). -/
structure Summary where
  total_files : ℕ
  total_scenes : ℕ
  failed : ℕ
  avg_time : ℚ
  success_rate : ℚ
  deriving DecidableEq, Repr

/-- `VideoProcessor._print_processing_summary` (lines 351-363): the
success-rate line divides by `total_files_processed` unguarded, so the
whole summary is `none` (the call raises) when that counter is 0. -/
def printSummary (s : Stats) : Option Summary :=
  match successRate s with
  | none => none
  | some r =>
      some
        { total_files := s.total_files_processed
          total_scenes := s.total_scenes_detected
          failed := s.failed_files
          avg_time := avgTime s
          success_rate := r }

/-- Whether the detection call returned a non-empty scene list (the
`if scenes:` test at line 187); `false` when detection raised, since no
list was returned at all. -/
def detectedNonEmpty : DetectResult → Bool
  | .ok s => decide (0 < s)
  | .raise _ => false

/- Concrete fixtures used by counterexamples and witnesses. -/

/-- A video file `a.mp4`. -/
def fileA : VFile := { stem := "a", suffix := ".mp4" }

/-- A video file `b.mp4`. -/
def fileB : VFile := { stem := "b", suffix := ".mp4" }

/-- A video file `c.mp4`. -/
def fileC : VFile := { stem := "c", suffix := ".mp4" }

/-- A configuration with output directory `out1`, no per-file subdirs. -/
def cfgOut1 : Config := { output_directory := "out1", create_subdirs := false }

/-- The same configuration after an edit of `output_directory`. -/
def cfgOut2 : Config := { output_directory := "out2", create_subdirs := false }

/-- A job whose detection finds 3 scenes and whose split succeeds,
running from time 0 to time 2. -/
def envOk3 : JobEnv := { detect := .ok 3, splitRaises := none, startTime := 0, endTime := 2 }

/-- A job whose detection finds no scenes, running from time 0 to 2. -/
def envOk0 : JobEnv := { detect := .ok 0, splitRaises := none, startTime := 0, endTime := 2 }

/-- A job whose detection raises, running from time 0 to time 2. -/
def envRaise : JobEnv :=
  { detect := .raise "boom", splitRaises := none, startTime := 0, endTime := 2 }

/-! Helper lemmas about `updateStats` and `runPool`. -/

/-- `_update_stats` increments `total_files_processed` by exactly one,
whatever keys the update dict carries. -/
theorem updateStats_total (s : Stats) (u : StatsUpdate) :
    (updateStats s u).total_files_processed = s.total_files_processed + 1 := by
  obtain ⟨a, b, c, d⟩ := u
  cases a <;> cases b <;> cases c <;> cases d <;> rfl

/-- `_update_stats` appends one record to `files_processed` exactly when
the update dict carries a `file_stats` key. -/
theorem updateStats_files (s : Stats) (u : StatsUpdate) :
    (updateStats s u).files_processed.length
      = s.files_processed.length + (if u.file_stats.isSome then 1 else 0) := by
  obtain ⟨a, b, c, d⟩ := u
  cases a <;> cases b <;> cases c <;> cases d <;> simp [updateStats]

/-- Folding any completion list through `_update_stats` adds the list
length to `total_files_processed`. -/
theorem runPool_total (s0 : Stats) (us : List StatsUpdate) :
    (runPool s0 us).total_files_processed = s0.total_files_processed + us.length := by
  induction us generalizing s0 with
  | nil => rfl
  | cons u us ih =>
      show (runPool (updateStats s0 u) us).total_files_processed = _
      rw [ih, updateStats_total]
      simp [Nat.add_assoc, Nat.add_comm 1]

/-- When every update in the completion list carries a `file_stats` key,
the pool run appends exactly one per-file record per update. -/
theorem runPool_files (s0 : Stats) (us : List StatsUpdate)
    (h : ∀ u ∈ us, u.file_stats.isSome = true) :
    (runPool s0 us).files_processed.length
      = s0.files_processed.length + us.length := by
  induction us generalizing s0 with
  | nil => rfl
  | cons u us ih =>
      show (runPool (updateStats s0 u) us).files_processed.length = _
      rw [ih _ (fun v hv => h v (List.mem_cons_of_mem _ hv)), updateStats_files,
        h u (List.mem_cons_self _ _)]
      simp [Nat.add_assoc, Nat.add_comm 1]

/-- Every `process_video` return value carries a `file_stats` key, on
all three paths. -/
theorem processVideo_has_file_stats (cfg : Config) (e : JobEnv) (f : VFile) :
    ((processVideo cfg e f).update.file_stats).isSome = true := by
  obtain ⟨d, sr, t0, t1⟩ := e
  cases d with
  | raise msg => rfl
  | ok s => cases s with
    | zero => rfl
    | succ s => cases sr <;> rfl

/-! Claim theorems. -/

/-- Claim C1: once a batch run settles, the aggregated
`total_files_processed` equals the number of jobs submitted to the pool
— one recorded result per submitted job, none lost, none
double-counted, for any completion order (any permutation of the
submitted updates) and on both the normal-return and the raising path
of a job. -/
theorem total_completed_eq_total_submitted
    (cfg : Config) (s0 : Stats) (entries : List VFile) (sel : Option (List ℤ))
    (envs : VFile → JobEnv) (completed : List StatsUpdate)
    (hperm : completed.Perm ((applyIndexFilter (getVideoFiles entries) sel).map
        (fun f => (processVideo cfg (envs f) f).update))) :
    (runPool s0 completed).total_files_processed
        = s0.total_files_processed + (applyIndexFilter (getVideoFiles entries) sel).length
    ∧ (processFolder cfg s0 entries sel envs).stats.total_files_processed
        = s0.total_files_processed + (processFolder cfg s0 entries sel envs).submitted := by
  constructor
  · rw [runPool_total, hperm.length_eq, List.length_map]
  · unfold processFolder
    by_cases h : (getVideoFiles entries).isEmpty <;> simp [h, runPool_total]

/-- Witness for C1 at a concrete one-file batch whose completion order
is the submission order. -/
theorem total_completed_eq_total_submitted_witness :
    (runPool initStats ((applyIndexFilter (getVideoFiles [fileA]) none).map
        (fun f => (processVideo cfgOut1 ((fun _ => envOk3) f) f).update))).total_files_processed
        = initStats.total_files_processed
          + (applyIndexFilter (getVideoFiles [fileA]) none).length
    ∧ (processFolder cfgOut1 initStats [fileA] none (fun _ => envOk3)).stats.total_files_processed
        = initStats.total_files_processed
          + (processFolder cfgOut1 initStats [fileA] none (fun _ => envOk3)).submitted :=
  total_completed_eq_total_submitted cfgOut1 initStats [fileA] none (fun _ => envOk3) _
    (List.Perm.refl _)

/-- Claim C10: an empty `selected_indices` list is falsy in Python, so
the index filter is skipped entirely — every discovered video file is
submitted, exactly as when no selection is passed at all. -/
theorem empty_selection_processes_all_files
    (cfg : Config) (s0 : Stats) (files : List VFile) (entries : List VFile)
    (envs : VFile → JobEnv) :
    applyIndexFilter files (some ([] : List ℤ)) = files
    ∧ applyIndexFilter files (none : Option (List ℤ)) = files
    ∧ (processFolder cfg s0 entries (some ([] : List ℤ)) envs).submitted
        = (getVideoFiles entries).length := by
  refine ⟨rfl, rfl, ?_⟩
  unfold processFolder
  by_cases h : (getVideoFiles entries).isEmpty
  · rw [List.isEmpty_iff] at h
    simp [h]
  · simp [h, applyIndexFilter]

/-- Counterexample to claim C4: a folder whose discovery list is the
single video file `a.mp4`, with selection `[5]`.  The post-filter set is
empty, yet the pool is started, no "no files" report is made, and the
summary is printed — the emptiness check precedes the index filter. -/
theorem pool_started_despite_empty_selection :
    applyIndexFilter (getVideoFiles [fileA]) (some [5]) = []
    ∧ (processFolder cfgOut1 initStats [fileA] (some [5]) (fun _ => envOk3)).poolStarted = true
    ∧ (processFolder cfgOut1 initStats [fileA] (some [5]) (fun _ => envOk3)).reportedNoFiles
        = false
    ∧ (processFolder cfgOut1 initStats [fileA] (some [5]) (fun _ => envOk3)).summaryPrinted
        = true := by
  decide

/-- Claim C4 as amended: the "no files" early return fires exactly when
the allow-list-filtered discovery list is empty, before the index filter
is applied; when the index filter empties a non-empty discovery list the
pool is still started (with zero jobs) and the summary is still
printed. -/
theorem no_files_check_precedes_index_filter
    (cfg : Config) (s0 : Stats) (entries : List VFile) (sel : Option (List ℤ))
    (envs : VFile → JobEnv) :
    (processFolder cfg s0 entries sel envs).reportedNoFiles = (getVideoFiles entries).isEmpty
    ∧ (processFolder cfg s0 entries sel envs).poolStarted = !(getVideoFiles entries).isEmpty
    ∧ (processFolder cfg s0 entries sel envs).summaryPrinted
        = !(getVideoFiles entries).isEmpty := by
  unfold processFolder
  by_cases h : (getVideoFiles entries).isEmpty <;> simp [h]

/-- Counterexample to claim C5: `selected_indices = [1, 5]` against the
3-file folder `[a.mp4, b.mp4, c.mp4]` selects `b.mp4` — the second
discovered file, not the first — because the filter of `process_folder`
is zero-based. -/
theorem indices_one_five_select_second_file :
    applyIndexFilter [fileA, fileB, fileC] (some [1, 5]) = [fileB]
    ∧ (fileB == fileA) = false :=
  ⟨rfl, by decide⟩

/-- Claim C5 as amended: the `selected_indices` parameter of
`process_folder` holds zero-based positions, out-of-range positions
silently dropped; the interactive menu subtracts one from each 1-based
user entry, so the user-level entry `[1, 5]` does process exactly the
first discovered file. -/
theorem indices_are_zero_based_and_menu_converts :
    applyIndexFilter [fileA, fileB, fileC] (some [1, 5]) = [fileB]
    ∧ applyIndexFilter [fileA, fileB, fileC] (some (menuToIndices [1, 5])) = [fileA] :=
  ⟨rfl, rfl⟩

/-- Counterexample to claim C2: a job whose detection raises returns
from the `except` block before lines 226-229 run, so its recorded result
has status "error" but carries no `processing_time` and no `end_time` —
timing is not computed on the Error path. -/
theorem error_result_lacks_duration :
    (processVideo cfgOut1 envRaise fileA).update.processing_time = none
    ∧ Option.map FileStats.processing_time (processVideo cfgOut1 envRaise fileA).update.file_stats
        = some none
    ∧ Option.map FileStats.end_time (processVideo cfgOut1 envRaise fileA).update.file_stats
        = some none
    ∧ Option.map FileStats.status (processVideo cfgOut1 envRaise fileA).update.file_stats
        = some .error := by
  decide

/-- Claim C2 as amended: on every job that does not raise (Success or
Warning outcome), `processing_time` is present on the result and on its
per-file record, equals `endTime - startTime`, the record carries
`end_time`, and the duration is non-negative whenever the clock does not
run backwards; on the Error path neither field is recorded. -/
theorem duration_recorded_on_non_raising_paths
    (cfg : Config) (e : JobEnv) (f : VFile)
    (hnr : jobRaises e = false) (hle : e.startTime ≤ e.endTime) :
    (processVideo cfg e f).update.processing_time = some (e.endTime - e.startTime)
    ∧ Option.bind (processVideo cfg e f).update.file_stats FileStats.processing_time
        = some (e.endTime - e.startTime)
    ∧ Option.bind (processVideo cfg e f).update.file_stats FileStats.end_time
        = some e.endTime
    ∧ 0 ≤ e.endTime - e.startTime := by
  obtain ⟨d, sr, t0, t1⟩ := e
  cases d with
  | raise msg => simp [jobRaises] at hnr
  | ok s =>
      cases s with
      | zero => exact ⟨rfl, rfl, rfl, sub_nonneg.mpr hle⟩
      | succ s =>
          cases sr with
          | none => exact ⟨rfl, rfl, rfl, sub_nonneg.mpr hle⟩
          | some msg => simp [jobRaises] at hnr

/-- Witness for the amended C2 at a concrete zero-scene (Warning) job
running from time 0 to time 2. -/
theorem duration_recorded_witness :
    (processVideo cfgOut1 envOk0 fileA).update.processing_time
        = some (envOk0.endTime - envOk0.startTime)
    ∧ Option.bind (processVideo cfgOut1 envOk0 fileA).update.file_stats FileStats.processing_time
        = some (envOk0.endTime - envOk0.startTime)
    ∧ Option.bind (processVideo cfgOut1 envOk0 fileA).update.file_stats FileStats.end_time
        = some envOk0.endTime
    ∧ 0 ≤ envOk0.endTime - envOk0.startTime :=
  duration_recorded_on_non_raising_paths cfgOut1 envOk0 fileA (by decide) (by norm_num [envOk0])

/-- Claim C3 (evidence of the code bug): the success-rate line of
`_print_processing_summary` divides by `total_files_processed` with no
guard, so with zero completed jobs the summary raises `ZeroDivisionError`
(modelled as `none`) instead of printing a 0 rate — and the state is
reachable: one discovered file with the out-of-range selection `[5]`
reaches the summary with zero completed jobs.  With a nonzero count the
rate does equal `(total - failed) / total * 100`. -/
theorem summary_divides_by_zero_when_no_jobs :
    successRate initStats = none
    ∧ printSummary initStats = none
    ∧ (processFolder cfgOut1 initStats [fileA] (some [5]) (fun _ => envOk3)).summaryPrinted
        = true
    ∧ (processFolder cfgOut1 initStats [fileA] (some [5])
        (fun _ => envOk3)).stats.total_files_processed = 0
    ∧ printSummary (processFolder cfgOut1 initStats [fileA] (some [5])
        (fun _ => envOk3)).stats = none
    ∧ successRate { initStats with total_files_processed := 2, failed_files := 1 } = some 50 := by
  refine ⟨by decide, by decide, by decide, by decide, by decide, ?_⟩
  simp [successRate, initStats]
  norm_num

/-- Claim C6: every job whose execution raises is converted at the
per-job boundary into a recorded result with status Error, adding one to
`failed_files` and one per-file record; and no submitted job is lost —
the pool records exactly one per-file record per submitted job, whatever
each sibling did. -/
theorem raising_jobs_recorded_and_isolated
    (cfg : Config) (s0 : Stats) (files : List VFile) (envs : VFile → JobEnv) :
    (runPool s0
        (files.map (fun f => (processVideo cfg (envs f) f).update))).files_processed.length
        = s0.files_processed.length + files.length
    ∧ ∀ (e : JobEnv) (f : VFile) (st : Stats), jobRaises e = true →
        (processVideo cfg e f).update.failed_files = some 1
        ∧ Option.map FileStats.status (processVideo cfg e f).update.file_stats = some .error
        ∧ (updateStats st (processVideo cfg e f).update).failed_files = st.failed_files + 1
        ∧ (updateStats st (processVideo cfg e f).update).files_processed.length
            = st.files_processed.length + 1 := by
  constructor
  · rw [runPool_files]
    · rw [List.length_map]
    · intro u hu
      rw [List.mem_map] at hu
      obtain ⟨f, _, rfl⟩ := hu
      exact processVideo_has_file_stats cfg (envs f) f
  · intro e f st h
    obtain ⟨d, sr, t0, t1⟩ := e
    cases d with
    | raise msg =>
        refine ⟨rfl, rfl, rfl, ?_⟩
        simp [processVideo, updateStats]
    | ok s =>
        cases s with
        | zero => simp [jobRaises] at h
        | succ s =>
            cases sr with
            | none => simp [jobRaises] at h
            | some msg =>
                refine ⟨rfl, rfl, rfl, ?_⟩
                simp [processVideo, updateStats]

/-- Witness for C6: a two-job batch in which the first job raises and
the second succeeds; both are recorded, and the raising job satisfies
the per-job Error conversion. -/
theorem raising_jobs_recorded_witness :
    (runPool initStats
        ([fileA, fileB].map (fun f =>
          (processVideo cfgOut1 ((fun g => if g == fileA then envRaise else envOk3) f)
            f).update))).files_processed.length
        = initStats.files_processed.length + [fileA, fileB].length
    ∧ ((processVideo cfgOut1 envRaise fileB).update.failed_files = some 1
        ∧ Option.map FileStats.status (processVideo cfgOut1 envRaise fileB).update.file_stats
            = some .error
        ∧ (updateStats initStats (processVideo cfgOut1 envRaise fileB).update).failed_files
            = initStats.failed_files + 1
        ∧ (updateStats initStats
            (processVideo cfgOut1 envRaise fileB).update).files_processed.length
            = initStats.files_processed.length + 1) :=
  ⟨(raising_jobs_recorded_and_isolated cfgOut1 initStats [fileA, fileB]
      (fun g => if g == fileA then envRaise else envOk3)).1,
    (raising_jobs_recorded_and_isolated cfgOut1 initStats [fileA, fileB]
      (fun g => if g == fileA then envRaise else envOk3)).2 envRaise fileB initStats (by decide)⟩

/-- Claim C7: `split_video_ffmpeg` is invoked exactly when detection
returned a non-empty scene list; a zero-scene job never calls it,
produces status Warning with `scenes_detected = 0` and no
`failed_files` key, and is counted as completed (one on
`total_files_processed`, nothing on `failed_files`). -/
theorem split_called_iff_scenes_nonempty
    (cfg : Config) (e : JobEnv) (f : VFile) (sr : Option String) (t0 t1 : ℚ) (st : Stats) :
    (processVideo cfg e f).splitCalled = detectedNonEmpty e.detect
    ∧ (processVideo cfg ⟨.ok 0, sr, t0, t1⟩ f).splitCalled = false
    ∧ Option.map FileStats.status (processVideo cfg ⟨.ok 0, sr, t0, t1⟩ f).update.file_stats
        = some .warning
    ∧ Option.map FileStats.scenes_detected
        (processVideo cfg ⟨.ok 0, sr, t0, t1⟩ f).update.file_stats = some 0
    ∧ (processVideo cfg ⟨.ok 0, sr, t0, t1⟩ f).update.failed_files = none
    ∧ (updateStats st (processVideo cfg ⟨.ok 0, sr, t0, t1⟩ f).update).total_files_processed
        = st.total_files_processed + 1
    ∧ (updateStats st (processVideo cfg ⟨.ok 0, sr, t0, t1⟩ f).update).failed_files
        = st.failed_files := by
  refine ⟨?_, rfl, rfl, rfl, rfl, rfl, rfl⟩
  obtain ⟨d, sr2, u0, u1⟩ := e
  cases d with
  | raise msg => rfl
  | ok s =>
      cases s with
      | zero => rfl
      | succ s => cases sr2 <;> simp [processVideo, detectedNonEmpty]

/-- Claim C8 (evidence of the code bug): on the zero-scene path the bar,
already at 50 after the detection updates, receives `update(90)`
(line 205) and overshoots to 140 before the `finally` block pulls it
back down to 100 — the trace leaves [0,100] and decreases, instead of
going directly from the detection milestone to 100. -/
theorem progress_overshoots_on_zero_scenes :
    progressTrace (.ok 0) = [10, 50, 140, 100]
    ∧ (processVideo cfgOut1 envOk0 fileA).progressTrace = [10, 50, 140, 100]
    ∧ (140 : ℚ) ∈ progressTrace (.ok 0)
    ∧ (100 : ℚ) < 140 := by
  have h : progressTrace (.ok 0) = [10, 50, 140, 100] := by
    norm_num [progressTrace, barUpdates, cumFrom]
  refine ⟨h, ?_, ?_, by norm_num⟩
  · show progressTrace envOk0.detect = _
    exact h
  · rw [h]
    norm_num

/-- Counterexample to claim C9: two executions of the same job and file
that differ only in the configuration in force while the job runs
resolve different output locations — there is no submission-time
snapshot shielding in-flight jobs from configuration edits. -/
theorem output_location_depends_on_execution_config :
    (processVideo cfgOut1 envOk3 fileA).outputLocation = some "out1/a-scene"
    ∧ (processVideo cfgOut2 envOk3 fileA).outputLocation = some "out2/a-scene"
    ∧ ("out1/a-scene" == "out2/a-scene") = false := by
  decide

/-- Claim C9 as amended: `_get_output_path` reads the live configuration
at execution time, so a job that splits resolves its output location
from whatever configuration is in force when it runs; an edit of
`output_directory` after submission but before execution therefore
changes an in-flight job output location. -/
theorem output_location_read_from_execution_config
    (cfg : Config) (e : JobEnv) (f : VFile) (s : ℕ)
    (h : e.detect = .ok (s + 1)) :
    (processVideo cfg e f).outputLocation = some (getOutputPath cfg f.stem) := by
  obtain ⟨d, sr, t0, t1⟩ := e
  simp only [JobEnv.detect] at h
  subst h
  cases sr <;> rfl

/-- Witness for the amended C9 at a concrete 3-scene job. -/
theorem output_location_read_witness :
    (processVideo cfgOut1 envOk3 fileA).outputLocation
        = some (getOutputPath cfgOut1 fileA.stem) :=
  output_location_read_from_execution_config cfgOut1 envOk3 fileA 2 rfl

end VideoSceneDetector
